import Mathlib

/-!
# Cloud Migration Planner — Cost & ROI Derivation Engine

Shallow embedding of the cost-derivation core of
`src/frontend/static/js/main.js` (cloud-migration-planner).

Conventions of the embedding:
* JavaScript numbers are modelled as rationals (`ℚ`); every constant in the
  source (`3000`, `100`, `50`, `1.4`, `1.2`, `1.5`) is exactly representable.
* `Math.ceil` on a quotient is `Int.ceil` of the rational quotient.
* A JavaScript division whose divisor may be `0` (which would produce
  `NaN`/`Infinity`) is embedded as an `Option ℚ`: `none` marks the
  `NaN`/`Infinity` outcome, `some q` the ordinary quotient.
* The object `serverCosts` (string-keyed, later assignments overwrite) is
  embedded as a function `String → Option CostBreakdown` built with
  `Function.update`, mirroring `serverCosts[id] = costs` in input order.
* DOM/HTML assembly is presentation and is not modelled; for
  `displayMigrationRoadmap` only its branch structure and the data it renders
  are kept, as the inductive `RoadmapRender`.
-/

/-- `cpu` block of `serverData.metrics`: `cores` and `utilization` (percent). -/
structure Cpu where
  cores : ℚ
  utilization : ℚ
  deriving DecidableEq, Repr

/-- `memory` block of `serverData.metrics` (bytes). -/
structure MemoryMetrics where
  total : ℚ
  used : ℚ
  deriving DecidableEq, Repr

/-- `storage` block of `serverData.metrics` (kibibytes, per the conversion in
`calculateStorageCost`). -/
structure StorageMetrics where
  total : ℚ
  used : ℚ
  deriving DecidableEq, Repr

/-- `serverData.metrics` as read by the cost helpers. -/
structure Metrics where
  cpu : Cpu
  memory : MemoryMetrics
  storage : StorageMetrics
  deriving DecidableEq, Repr

/-- `serverData.networkUtilization` as read by `calculateNetworkCost`. -/
structure NetworkUtilization where
  bandwidth : ℚ
  averageUsage : ℚ
  deriving DecidableEq, Repr

/-- `server.serverData`: identity, metrics and network utilization. -/
structure ServerData where
  serverId : String
  serverName : String
  applications : List String
  metrics : Metrics
  networkUtilization : NetworkUtilization
  deriving DecidableEq, Repr

/-- `server.migrationStrategy`: the strategy label plus display data. -/
structure MigrationStrategy where
  strategy : String
  description : String
  aws_services : List String
  deriving DecidableEq, Repr

/-- `server.complexity`: level label and percentage score. -/
structure ComplexityAssessment where
  level : String
  percentage : ℚ
  deriving DecidableEq, Repr

/-- One element of the input `data.servers` array. -/
structure ServerAnalysis where
  serverData : ServerData
  migrationStrategy : MigrationStrategy
  complexity : ComplexityAssessment
  deriving DecidableEq, Repr

/-- Result record of `calculateServerCosts`. -/
structure CostBreakdown where
  projectedMonthlyCost : ℚ
  currentMonthlyCost : ℚ
  migrationCost : ℚ
  savings : ℚ
  deriving DecidableEq, Repr

/-- `calculateComputeCost` (main.js:120-125):
`metrics.cpu.cores * 3000 * (metrics.cpu.utilization / 100)`. -/
def calculateComputeCost (metrics : Metrics) : ℚ :=
  let costPerCore : ℚ := 3000
  let utilizationFactor := metrics.cpu.utilization / 100
  metrics.cpu.cores * costPerCore * utilizationFactor

/-- `calculateStorageCost` (main.js:127-132):
`(metrics.storage.total / (1024*1024)) * 100` (KB → GB, then ₹100/GB). -/
def calculateStorageCost (metrics : Metrics) : ℚ :=
  let costPerGB : ℚ := 100
  let storageGB := metrics.storage.total / (1024 * 1024)
  storageGB * costPerGB

/-- `calculateNetworkCost` (main.js:134-138):
`(bandwidth * averageUsage / 100) * 50`. -/
def calculateNetworkCost (networkUtilization : NetworkUtilization) : ℚ :=
  let costPerGBBandwidth : ℚ := 50
  networkUtilization.bandwidth * networkUtilization.averageUsage / 100 *
    costPerGBBandwidth

/-- `getBaselineMigrationCost` (main.js:140-147), ℚ-valued SIMPLIFICATION:
the table `{Rehost: 500000, Replatform: 1000000, Refactor: 2000000}` with the
fallback of `costs[strategy] || costs.Rehost` applied to every other string.
This is what `calculateServerCosts` consumes, and it is faithful for every
key that is NOT an `Object.prototype` member name; for those names the real
bracket read finds the inherited truthy member and the `||` never fires —
that behavior is modelled faithfully by `getBaselineMigrationCostJs` below,
and `getBaselineMigrationCost_agrees` delimits where the two coincide. -/
def getBaselineMigrationCost (strategy : String) : ℚ :=
  if strategy = "Rehost" then 500000
  else if strategy = "Replatform" then 1000000
  else if strategy = "Refactor" then 2000000
  else 500000

/-- `getComplexityMultiplier` (main.js:149-156), ℚ-valued SIMPLIFICATION:
the table `{High: 1.5, Medium: 1.2, Low: 1.0}` with the fallback of
`multipliers[level] || 1.0` applied to every other string. Faithful for every
key that is NOT an `Object.prototype` member name; the faithful bracket-read
model is `getComplexityMultiplierJs` below, and
`getComplexityMultiplier_agrees` delimits where the two coincide. -/
def getComplexityMultiplier (level : String) : ℚ :=
  if level = "High" then 1.5
  else if level = "Medium" then 1.2
  else if level = "Low" then 1.0
  else 1.0

/-- The member names every plain object literal inherits from
`Object.prototype`: a bracket read with one of these keys misses the own
properties but finds the inherited member, which is truthy. -/
def objectPrototypeMemberNames : List String :=
  ["constructor", "hasOwnProperty", "isPrototypeOf", "propertyIsEnumerable",
   "toLocaleString", "toString", "valueOf", "__defineGetter__",
   "__defineSetter__", "__lookupGetter__", "__lookupSetter__", "__proto__"]

/-- Value of a JS bracket read on one of the two lookup-table object
literals: an own data property holding a number, a member inherited from
`Object.prototype` (identified by the key that reached it; always truthy),
or `undefined` for any other key. -/
inductive JsProp where
  | num : ℚ → JsProp
  | protoFn : String → JsProp
  | undefined : JsProp
  deriving DecidableEq, Repr

/-- JS truthiness of a looked-up value: `0` is falsy, any other number is
truthy, an inherited `Object.prototype` member is truthy, `undefined` is
falsy. -/
def JsProp.truthy : JsProp → Bool
  | .num q => decide (q ≠ 0)
  | .protoFn _ => true
  | .undefined => false

/-- The bracket read `costs[strategy]` inside `getBaselineMigrationCost`
(main.js:141-146), prototype chain included: the three own keys hold
numbers, an `Object.prototype` member name finds the inherited member, and
every other key reads `undefined`. -/
def lookupCosts (strategy : String) : JsProp :=
  if strategy = "Rehost" then .num 500000
  else if strategy = "Replatform" then .num 1000000
  else if strategy = "Refactor" then .num 2000000
  else if strategy ∈ objectPrototypeMemberNames then .protoFn strategy
  else .undefined

/-- `costs[strategy] || costs.Rehost` (main.js:146) over the faithful
bracket-read model: the `Rehost` fallback fires only when the read value is
falsy. -/
def getBaselineMigrationCostJs (strategy : String) : JsProp :=
  let v := lookupCosts strategy
  if v.truthy then v else lookupCosts "Rehost"

/-- The bracket read `multipliers[level]` inside `getComplexityMultiplier`
(main.js:150-155), prototype chain included. -/
def lookupMultipliers (level : String) : JsProp :=
  if level = "High" then .num 1.5
  else if level = "Medium" then .num 1.2
  else if level = "Low" then .num 1.0
  else if level ∈ objectPrototypeMemberNames then .protoFn level
  else .undefined

/-- `multipliers[level] || 1.0` (main.js:155) over the faithful bracket-read
model. -/
def getComplexityMultiplierJs (level : String) : JsProp :=
  let v := lookupMultipliers level
  if v.truthy then v else .num 1.0

/-- `calculateServerCosts` (main.js:98-117). -/
def calculateServerCosts (server : ServerAnalysis) : CostBreakdown :=
  let baselineCost := getBaselineMigrationCost server.migrationStrategy.strategy
  let complexityMultiplier := getComplexityMultiplier server.complexity.level
  let computeCost := calculateComputeCost server.serverData.metrics
  let storageCost := calculateStorageCost server.serverData.metrics
  let networkCost := calculateNetworkCost server.serverData.networkUtilization
  let projectedMonthlyCost := computeCost + storageCost + networkCost
  let currentMonthlyCost := projectedMonthlyCost * 1.4
  let migrationCost := baselineCost * complexityMultiplier
  { projectedMonthlyCost := projectedMonthlyCost
    currentMonthlyCost := currentMonthlyCost
    migrationCost := migrationCost
    savings := currentMonthlyCost - projectedMonthlyCost }

/-- Result record of `processServerCosts`. `serverCosts` embeds the JS object
keyed by `serverId` (assignment overwrites). -/
structure PortfolioCostSummary where
  totalMigrationCost : ℚ
  monthlyCloudCost : ℚ
  currentCosts : ℚ
  monthlySavings : ℚ
  roiMonths : ℤ
  serverCosts : String → Option CostBreakdown

/-- Accumulator state of the `servers.forEach` loop in `processServerCosts`
(main.js:70-82): the three running totals and the `serverCosts` object. -/
structure AggAcc where
  totalMigrationCost : ℚ
  monthlyCloudCost : ℚ
  currentCosts : ℚ
  serverCosts : String → Option CostBreakdown

/-- One iteration of the `forEach` body in `processServerCosts`
(main.js:75-82). -/
def aggStep (acc : AggAcc) (server : ServerAnalysis) : AggAcc :=
  let costs := calculateServerCosts server
  { totalMigrationCost := acc.totalMigrationCost + costs.migrationCost
    monthlyCloudCost := acc.monthlyCloudCost + costs.projectedMonthlyCost
    currentCosts := acc.currentCosts + costs.currentMonthlyCost
    serverCosts :=
      Function.update acc.serverCosts server.serverData.serverId (some costs) }

/-- `processServerCosts` (main.js:69-95): fold the loop body over the input,
then derive `monthlySavings` and `roiMonths`
(`monthlySavings > 0 ? Math.ceil(totalMigrationCost / monthlySavings) : 0`). -/
def processServerCosts (servers : List ServerAnalysis) : PortfolioCostSummary :=
  let acc := servers.foldl aggStep
    { totalMigrationCost := 0
      monthlyCloudCost := 0
      currentCosts := 0
      serverCosts := fun _ => none }
  let monthlySavings := acc.currentCosts - acc.monthlyCloudCost
  let roiMonths : ℤ :=
    if monthlySavings > 0 then ⌈acc.totalMigrationCost / monthlySavings⌉ else 0
  { totalMigrationCost := acc.totalMigrationCost
    monthlyCloudCost := acc.monthlyCloudCost
    currentCosts := acc.currentCosts
    monthlySavings := monthlySavings
    roiMonths := roiMonths
    serverCosts := acc.serverCosts }

/-- The cost-reduction percentage computed in `displayCostAnalysis`
(main.js:264):
`((costData.currentCosts - costData.monthlyCloudCost) / costData.currentCosts) * 100`.
The source divides unconditionally; the embedding returns `none` exactly when
the JS computation would produce `NaN` or `Infinity` (divisor `0`), and the
unconditional `* 100` is mapped over it (`NaN × 100 = NaN`). -/
def costReduction (costData : PortfolioCostSummary) : Option ℚ :=
  if costData.currentCosts = 0 then none
  else some ((costData.currentCosts - costData.monthlyCloudCost) /
    costData.currentCosts * 100)

/-- `roadmap.projectSummary` as rendered by `displayMigrationRoadmap`. -/
structure ProjectSummary where
  duration : String
  totalEffort : ℚ
  startDate : String
  endDate : String
  deriving DecidableEq, Repr

/-- One element of `roadmap.timeline` as rendered by `createPhaseElement`. -/
structure RoadmapPhase where
  name : String
  startDate : String
  endDate : String
  duration : String
  criticalPath : Bool
  complexity : String
  strategy : Option String
  tasks : List String
  deliverables : List String
  risks : List String
  deriving DecidableEq, Repr

/-- The `roadmap` input object. `timeline` is `Option`al because the guard
`!roadmap || !roadmap.timeline` (main.js:392) treats a missing/null `timeline`
as falsy; a present array — even an empty one — is truthy in JS. -/
structure Roadmap where
  projectSummary : ProjectSummary
  timeline : Option (List RoadmapPhase)
  deriving DecidableEq, Repr

/-- Outcome of `displayMigrationRoadmap`, stripped of HTML assembly: either
the "Roadmap information not available" sentinel, or a normal render carrying
the project summary and the phases iterated by the `forEach`. -/
inductive RoadmapRender where
  | unavailable : RoadmapRender
  | rendered : ProjectSummary → List RoadmapPhase → RoadmapRender
  deriving DecidableEq, Repr

/-- `displayMigrationRoadmap` (main.js:389-431): the guard
`if (!roadmap || !roadmap.timeline)` yields the sentinel; otherwise the
summary block and every phase of `roadmap.timeline` are rendered. -/
def displayMigrationRoadmap (roadmap : Option Roadmap) : RoadmapRender :=
  match roadmap with
  | none => .unavailable
  | some r =>
    match r.timeline with
    | none => .unavailable
    | some timeline => .rendered r.projectSummary timeline

/-! ## Closed forms for the aggregation fold -/

/-- After the `forEach` loop, `totalMigrationCost` is the initial value plus
the sum of the per-server `migrationCost`s. -/
lemma aggFold_totalMigrationCost (servers : List ServerAnalysis) (a : AggAcc) :
    (servers.foldl aggStep a).totalMigrationCost =
      a.totalMigrationCost +
        (servers.map fun s => (calculateServerCosts s).migrationCost).sum := by
  induction servers generalizing a with
  | nil => simp
  | cons s l ih => simp [ih, aggStep]; ring

/-- After the `forEach` loop, `monthlyCloudCost` is the initial value plus the
sum of the per-server `projectedMonthlyCost`s. -/
lemma aggFold_monthlyCloudCost (servers : List ServerAnalysis) (a : AggAcc) :
    (servers.foldl aggStep a).monthlyCloudCost =
      a.monthlyCloudCost +
        (servers.map fun s => (calculateServerCosts s).projectedMonthlyCost).sum := by
  induction servers generalizing a with
  | nil => simp
  | cons s l ih => simp [ih, aggStep]; ring

/-- After the `forEach` loop, `currentCosts` is the initial value plus the sum
of the per-server `currentMonthlyCost`s. -/
lemma aggFold_currentCosts (servers : List ServerAnalysis) (a : AggAcc) :
    (servers.foldl aggStep a).currentCosts =
      a.currentCosts +
        (servers.map fun s => (calculateServerCosts s).currentMonthlyCost).sum := by
  induction servers generalizing a with
  | nil => simp
  | cons s l ih => simp [ih, aggStep]; ring

/-- After the `forEach` loop, looking up an id in the `serverCosts` object
finds the breakdown of the LAST server in input order bearing that id (later
`serverCosts[id] = costs` assignments overwrite earlier ones), and falls back
to the initial object when no server bears the id. -/
lemma aggFold_serverCosts (servers : List ServerAnalysis) (a : AggAcc)
    (id : String) :
    (servers.foldl aggStep a).serverCosts id =
      match servers.reverse.find? (fun s => s.serverData.serverId == id) with
      | some s => some (calculateServerCosts s)
      | none => a.serverCosts id := by
  induction servers generalizing a with
  | nil => simp
  | cons s l ih =>
    rw [List.foldl_cons, ih, List.reverse_cons, List.find?_append]
    rcases h : l.reverse.find? (fun s => s.serverData.serverId == id) with _ | t
    · by_cases hs : s.serverData.serverId = id
      · subst hs
        rw [h]
        simp [aggStep, Function.update_apply, List.find?_cons]
      · rw [h]
        simp only [Option.none_or, List.find?_cons, List.find?_nil,
          beq_eq_false_iff_ne.mpr hs]
        simp only [aggStep, Function.update_apply]
        rw [if_neg (fun he => hs he.symm)]
    · rw [h]
      simp [Option.or_some]

/-! ## Concrete servers used as witnesses -/

/-- The worked example of spec §8: 4 cores at 50% utilization, 1 GB of
storage (1,048,576 KB), 100 GB bandwidth at 50% average usage, strategy
`Replatform`, complexity `Medium`. -/
def exampleServer : ServerAnalysis :=
  { serverData :=
      { serverId := "srv-001"
        serverName := "app-server-1"
        applications := ["web"]
        metrics :=
          { cpu := ⟨4, 50⟩
            memory := ⟨8589934592, 4294967296⟩
            storage := ⟨1048576, 524288⟩ }
        networkUtilization := ⟨100, 50⟩ }
    migrationStrategy :=
      { strategy := "Replatform"
        description := "Move with minor optimizations"
        aws_services := ["ECS", "RDS"] }
    complexity := { level := "Medium", percentage := 55 } }

/-- A server whose every metric is zero: its projected and current monthly
costs are both `0`, so a portfolio of such servers has `currentCosts = 0`. -/
def zeroServer : ServerAnalysis :=
  { serverData :=
      { serverId := "srv-zero"
        serverName := "idle-server"
        applications := []
        metrics :=
          { cpu := ⟨0, 0⟩
            memory := ⟨0, 0⟩
            storage := ⟨0, 0⟩ }
        networkUtilization := ⟨0, 0⟩ }
    migrationStrategy :=
      { strategy := "Rehost"
        description := "Lift and shift"
        aws_services := ["EC2"] }
    complexity := { level := "Low", percentage := 10 } }

/-- First of two servers sharing the id `"dup"`. -/
def dupServerA : ServerAnalysis :=
  { serverData :=
      { serverId := "dup"
        serverName := "dup-server-a"
        applications := ["db"]
        metrics :=
          { cpu := ⟨2, 40⟩
            memory := ⟨1024, 512⟩
            storage := ⟨2097152, 1048576⟩ }
        networkUtilization := ⟨10, 20⟩ }
    migrationStrategy :=
      { strategy := "Rehost"
        description := "Lift and shift"
        aws_services := ["EC2"] }
    complexity := { level := "Low", percentage := 20 } }

/-- Second of two servers sharing the id `"dup"`; this one appears later in
input order, so the mapping keeps its breakdown. -/
def dupServerB : ServerAnalysis :=
  { serverData :=
      { serverId := "dup"
        serverName := "dup-server-b"
        applications := ["cache"]
        metrics :=
          { cpu := ⟨8, 75⟩
            memory := ⟨2048, 1024⟩
            storage := ⟨4194304, 2097152⟩ }
        networkUtilization := ⟨200, 60⟩ }
    migrationStrategy :=
      { strategy := "Refactor"
        description := "Re-architect"
        aws_services := ["Lambda"] }
    complexity := { level := "High", percentage := 90 } }

/-! ## Claims -/

/-- C1 counterexample: `processServerCosts` applied to the empty server
sequence does NOT fail — it returns an ordinary `PortfolioCostSummary`
record, here computed in full: every numeric field is `0` and the
`serverCosts` mapping is empty. There is no `EmptyPortfolio` (or any other)
failure path in the function. -/
theorem processServerCosts_empty_counterexample :
    processServerCosts [] =
      { totalMigrationCost := 0
        monthlyCloudCost := 0
        currentCosts := 0
        monthlySavings := 0
        roiMonths := 0
        serverCosts := fun _ => none } := by
  simp only [processServerCosts, List.foldl_nil]
  norm_num

/-- C1 (amended): aggregating over an empty portfolio does not fail; for the
empty sequence `processServerCosts` returns a result object whose totals,
`monthlySavings` and `roiMonths` are all `0` and whose per-server mapping is
empty. -/
theorem processServerCosts_empty_returns_zeros :
    (processServerCosts []).totalMigrationCost = 0 ∧
    (processServerCosts []).monthlyCloudCost = 0 ∧
    (processServerCosts []).currentCosts = 0 ∧
    (processServerCosts []).monthlySavings = 0 ∧
    (processServerCosts []).roiMonths = 0 ∧
    (processServerCosts []).serverCosts = fun _ => none := by
  simp only [processServerCosts, List.foldl_nil]
  norm_num

/-- C2: the cost-reduction percentage of `displayCostAnalysis` (main.js:264)
is NOT guarded. On the one-server portfolio whose server has all-zero
metrics, `currentCosts = 0` and the code evaluates `((0 − 0) / 0) × 100`,
i.e. `NaN` (embedded as `none`), which flows straight into the rendered
summary — contradicting the spec's requirement to fail with
`DivisionByZero` or return the sentinel `0`. -/
theorem costReduction_zero_portfolio_is_nan :
    costReduction (processServerCosts [zeroServer]) = none := by
  have hcur : (processServerCosts [zeroServer]).currentCosts = 0 := by
    simp only [processServerCosts]
    rw [aggFold_currentCosts]
    norm_num [zeroServer, calculateServerCosts, calculateComputeCost,
      calculateStorageCost, calculateNetworkCost]
  simp [costReduction, hcur]

/-- C3 counterexample: a roadmap whose `timeline` is PRESENT but EMPTY does
not produce the "unavailable" sentinel: an empty JS array is truthy, so the
guard `!roadmap || !roadmap.timeline` falls through and the summary block is
rendered with zero phases. -/
theorem displayMigrationRoadmap_empty_timeline_counterexample :
    displayMigrationRoadmap
        (some { projectSummary := ⟨"6 months", 1200, "2025-01-01", "2025-06-30"⟩
                timeline := some [] })
      ≠ RoadmapRender.unavailable := by
  simp [displayMigrationRoadmap]

/-- C3 (amended): the roadmap renderer returns the "unavailable" sentinel
exactly when the roadmap object or its `timeline` field is absent, and never
throws; a present-but-empty phase list yields a normal render with zero
phases, not the sentinel. -/
theorem displayMigrationRoadmap_sentinel_spec :
    displayMigrationRoadmap none = RoadmapRender.unavailable ∧
    (∀ ps : ProjectSummary,
      displayMigrationRoadmap (some ⟨ps, none⟩) = RoadmapRender.unavailable) ∧
    (∀ (ps : ProjectSummary) (timeline : List RoadmapPhase),
      displayMigrationRoadmap (some ⟨ps, some timeline⟩) =
        RoadmapRender.rendered ps timeline) :=
  ⟨rfl, fun _ => rfl, fun _ _ => rfl⟩

/-- C4: for every non-empty portfolio, `roiMonths` is `0` whenever the
aggregated `monthlySavings` is non-positive, and otherwise equals the
ceiling of `totalMigrationCost / monthlySavings` — exactly the ternary
`monthlySavings > 0 ? Math.ceil(totalMigrationCost / monthlySavings) : 0`. -/
theorem roiMonths_spec (servers : List ServerAnalysis) (_hne : servers ≠ []) :
    ((processServerCosts servers).monthlySavings ≤ 0 →
      (processServerCosts servers).roiMonths = 0) ∧
    (0 < (processServerCosts servers).monthlySavings →
      (processServerCosts servers).roiMonths =
        ⌈(processServerCosts servers).totalMigrationCost /
          (processServerCosts servers).monthlySavings⌉) := by
  constructor
  · intro hle
    simp only [processServerCosts] at hle ⊢
    rw [if_neg (not_lt.mpr hle)]
  · intro hpos
    simp only [processServerCosts] at hpos ⊢
    rw [if_pos hpos]

/-- C4 witness: the one-server portfolio `[exampleServer]` instantiates
`roiMonths_spec`. -/
theorem roiMonths_spec_witness :
    [exampleServer] ≠ [] ∧
    (((processServerCosts [exampleServer]).monthlySavings ≤ 0 →
      (processServerCosts [exampleServer]).roiMonths = 0) ∧
    (0 < (processServerCosts [exampleServer]).monthlySavings →
      (processServerCosts [exampleServer]).roiMonths =
        ⌈(processServerCosts [exampleServer]).totalMigrationCost /
          (processServerCosts [exampleServer]).monthlySavings⌉)) :=
  ⟨by simp, roiMonths_spec [exampleServer] (by simp)⟩

/-- C5: the per-server breakdown satisfies the four defining equations:
`projectedMonthlyCost` is the sum of the three cost components,
`currentMonthlyCost` is `projectedMonthlyCost × 1.4` exactly,
`migrationCost` is the strategy baseline times the complexity multiplier,
and `savings` is `currentMonthlyCost − projectedMonthlyCost`. -/
theorem calculateServerCosts_equations (server : ServerAnalysis) :
    (calculateServerCosts server).projectedMonthlyCost =
      calculateComputeCost server.serverData.metrics +
        calculateStorageCost server.serverData.metrics +
        calculateNetworkCost server.serverData.networkUtilization ∧
    (calculateServerCosts server).currentMonthlyCost =
      (calculateServerCosts server).projectedMonthlyCost * 1.4 ∧
    (calculateServerCosts server).migrationCost =
      getBaselineMigrationCost server.migrationStrategy.strategy *
        getComplexityMultiplier server.complexity.level ∧
    (calculateServerCosts server).savings =
      (calculateServerCosts server).currentMonthlyCost -
        (calculateServerCosts server).projectedMonthlyCost :=
  ⟨rfl, rfl, rfl, rfl⟩

/-- C6: the spec §8 worked example. For `exampleServer` (4 cores at 50%,
1,048,576 KB of storage, 100 GB bandwidth at 50% usage, `Replatform`,
`Medium`): `computeCost = 6000`, `storageCost = 100`, `networkCost = 2500`,
`projectedMonthlyCost = 8600`, `currentMonthlyCost = 12040`,
`migrationCost = 1200000`, `savings = 3440`. -/
theorem exampleServer_costs :
    calculateComputeCost exampleServer.serverData.metrics = 6000 ∧
    calculateStorageCost exampleServer.serverData.metrics = 100 ∧
    calculateNetworkCost exampleServer.serverData.networkUtilization = 2500 ∧
    (calculateServerCosts exampleServer).projectedMonthlyCost = 8600 ∧
    (calculateServerCosts exampleServer).currentMonthlyCost = 12040 ∧
    (calculateServerCosts exampleServer).migrationCost = 1200000 ∧
    (calculateServerCosts exampleServer).savings = 3440 := by
  simp [exampleServer, calculateServerCosts, calculateComputeCost,
    calculateStorageCost, calculateNetworkCost, getBaselineMigrationCost,
    getComplexityMultiplier]
  norm_num

/-- Where the ℚ-valued simplification of the strategy table is faithful: on
every key that is not an `Object.prototype` member name the faithful
bracket-read model produces a number, namely `getBaselineMigrationCost`. -/
lemma getBaselineMigrationCost_agrees (strategy : String)
    (h : strategy ∉ objectPrototypeMemberNames) :
    getBaselineMigrationCostJs strategy =
      JsProp.num (getBaselineMigrationCost strategy) := by
  by_cases h1 : strategy = "Rehost"
  · simp [getBaselineMigrationCostJs, lookupCosts, getBaselineMigrationCost,
      JsProp.truthy, h1]
  · by_cases h2 : strategy = "Replatform"
    · simp [getBaselineMigrationCostJs, lookupCosts, getBaselineMigrationCost,
        JsProp.truthy, h1, h2]
    · by_cases h3 : strategy = "Refactor"
      · simp [getBaselineMigrationCostJs, lookupCosts,
          getBaselineMigrationCost, JsProp.truthy, h1, h2, h3]
      · simp [getBaselineMigrationCostJs, lookupCosts,
          getBaselineMigrationCost, JsProp.truthy, h1, h2, h3, h]

/-- Where the ℚ-valued simplification of the multiplier table is faithful: on
every key that is not an `Object.prototype` member name the faithful
bracket-read model produces a number, namely `getComplexityMultiplier`. -/
lemma getComplexityMultiplier_agrees (level : String)
    (h : level ∉ objectPrototypeMemberNames) :
    getComplexityMultiplierJs level =
      JsProp.num (getComplexityMultiplier level) := by
  by_cases h1 : level = "High"
  · simp [getComplexityMultiplierJs, lookupMultipliers, getComplexityMultiplier,
      JsProp.truthy, h1]
    norm_num
  · by_cases h2 : level = "Medium"
    · simp [getComplexityMultiplierJs, lookupMultipliers,
        getComplexityMultiplier, JsProp.truthy, h1, h2]
      norm_num
    · by_cases h3 : level = "Low"
      · simp [getComplexityMultiplierJs, lookupMultipliers,
          getComplexityMultiplier, JsProp.truthy, h1, h2, h3]
      · simp [getComplexityMultiplierJs, lookupMultipliers,
          getComplexityMultiplier, JsProp.truthy, h1, h2, h3, h]

/-- C7 counterexample: at the unrecognized key `"toString"` — an
`Object.prototype` member name — the bracket read finds the inherited truthy
member, `|| costs.Rehost` (resp. `|| 1.0`) never fires, and both lookups
return that inherited function rather than the documented fallback constants
`500000` and `1.0`. -/
theorem lookup_tables_proto_counterexample :
    getBaselineMigrationCostJs "toString" = JsProp.protoFn "toString" ∧
    getBaselineMigrationCostJs "toString" ≠ JsProp.num 500000 ∧
    getComplexityMultiplierJs "toString" = JsProp.protoFn "toString" ∧
    getComplexityMultiplierJs "toString" ≠ JsProp.num 1.0 := by
  refine ⟨?_, ?_, ?_, ?_⟩ <;>
    simp [getBaselineMigrationCostJs, getComplexityMultiplierJs, lookupCosts,
      lookupMultipliers, objectPrototypeMemberNames, JsProp.truthy]

/-- C7 (amended): the lookups return the documented constants on the three
recognized keys; on every unrecognized key that is not an `Object.prototype`
member name they return the documented fallbacks (the `Rehost` value, resp.
`1.0`); but on an `Object.prototype` member name the bracket read finds the
inherited truthy member, so the fallback never fires and the inherited
function is returned instead. -/
theorem lookup_tables_proto_spec :
    getBaselineMigrationCostJs "Rehost" = JsProp.num 500000 ∧
    getBaselineMigrationCostJs "Replatform" = JsProp.num 1000000 ∧
    getBaselineMigrationCostJs "Refactor" = JsProp.num 2000000 ∧
    (∀ strategy : String, strategy ≠ "Rehost" → strategy ≠ "Replatform" →
      strategy ≠ "Refactor" → strategy ∉ objectPrototypeMemberNames →
      getBaselineMigrationCostJs strategy = JsProp.num 500000) ∧
    (∀ strategy : String, strategy ∈ objectPrototypeMemberNames →
      getBaselineMigrationCostJs strategy = JsProp.protoFn strategy) ∧
    getComplexityMultiplierJs "High" = JsProp.num 1.5 ∧
    getComplexityMultiplierJs "Medium" = JsProp.num 1.2 ∧
    getComplexityMultiplierJs "Low" = JsProp.num 1.0 ∧
    (∀ level : String, level ≠ "High" → level ≠ "Medium" → level ≠ "Low" →
      level ∉ objectPrototypeMemberNames →
      getComplexityMultiplierJs level = JsProp.num 1.0) ∧
    (∀ level : String, level ∈ objectPrototypeMemberNames →
      getComplexityMultiplierJs level = JsProp.protoFn level) := by
  have hmem : ∀ s : String, s ∈ objectPrototypeMemberNames →
      s ≠ "Rehost" ∧ s ≠ "Replatform" ∧ s ≠ "Refactor" ∧
      s ≠ "High" ∧ s ≠ "Medium" ∧ s ≠ "Low" := by
    intro s hs
    fin_cases hs <;> refine ⟨by simp, by simp, by simp, by simp, by simp, by simp⟩
  refine ⟨?_, ?_, ?_, fun s h1 h2 h3 h4 => ?_, fun s hs => ?_,
    ?_, ?_, ?_, fun l h1 h2 h3 h4 => ?_, fun l hl => ?_⟩
  · simp [getBaselineMigrationCostJs, lookupCosts, JsProp.truthy]
  · simp [getBaselineMigrationCostJs, lookupCosts, JsProp.truthy]
  · simp [getBaselineMigrationCostJs, lookupCosts, JsProp.truthy]
  · simp [getBaselineMigrationCostJs, lookupCosts, JsProp.truthy, h1, h2, h3, h4]
  · obtain ⟨n1, n2, n3, -, -, -⟩ := hmem s hs
    simp [getBaselineMigrationCostJs, lookupCosts, JsProp.truthy, n1, n2, n3, hs]
  · simp [getComplexityMultiplierJs, lookupMultipliers, JsProp.truthy]
    norm_num
  · simp [getComplexityMultiplierJs, lookupMultipliers, JsProp.truthy]
    norm_num
  · simp [getComplexityMultiplierJs, lookupMultipliers, JsProp.truthy]
  · simp [getComplexityMultiplierJs, lookupMultipliers, JsProp.truthy,
      h1, h2, h3, h4]
  · obtain ⟨-, -, -, n4, n5, n6⟩ := hmem l hl
    simp [getComplexityMultiplierJs, lookupMultipliers, JsProp.truthy,
      n4, n5, n6, hl]

/-- C7 witness: `lookup_tables_proto_spec` instantiated at the unrecognized
non-prototype key `"Landlift"` (fallback fires) and at the prototype member
names `"valueOf"` and `"constructor"` (inherited member returned). -/
theorem lookup_tables_proto_spec_witness :
    getBaselineMigrationCostJs "Landlift" = JsProp.num 500000 ∧
    getBaselineMigrationCostJs "valueOf" = JsProp.protoFn "valueOf" ∧
    getComplexityMultiplierJs "Landlift" = JsProp.num 1.0 ∧
    getComplexityMultiplierJs "constructor" = JsProp.protoFn "constructor" :=
  ⟨lookup_tables_proto_spec.2.2.2.1 "Landlift" (by simp) (by simp) (by simp)
      (by simp [objectPrototypeMemberNames]),
   lookup_tables_proto_spec.2.2.2.2.1 "valueOf"
      (by simp [objectPrototypeMemberNames]),
   lookup_tables_proto_spec.2.2.2.2.2.2.2.2.1 "Landlift" (by simp) (by simp)
      (by simp) (by simp [objectPrototypeMemberNames]),
   lookup_tables_proto_spec.2.2.2.2.2.2.2.2.2 "constructor"
      (by simp [objectPrototypeMemberNames])⟩

/-- A server identical to `base` except that its `cpu` block is
`⟨cores, utilization⟩`: the "holding all other inputs fixed" modification of
C8. -/
def serverWithCpu (base : ServerAnalysis) (cores utilization : ℚ) :
    ServerAnalysis :=
  { base with
    serverData :=
      { base.serverData with
        metrics := { base.serverData.metrics with cpu := ⟨cores, utilization⟩ } } }

/-- C8: within the data-model bounds (`cores > 0`, utilization in 0–100),
`projectedMonthlyCost` is monotone in `cpu.cores` and in `cpu.utilization`,
each holding every other input fixed. -/
theorem projectedMonthlyCost_monotone (base : ServerAnalysis)
    (c₁ c₂ u₁ u₂ : ℚ) (hc₁ : 0 < c₁) (hc : c₁ ≤ c₂)
    (hu₁ : 0 ≤ u₁) (_hu₁h : u₁ ≤ 100) (hu : u₁ ≤ u₂) (_hu₂ : u₂ ≤ 100) :
    (calculateServerCosts (serverWithCpu base c₁ u₁)).projectedMonthlyCost ≤
      (calculateServerCosts (serverWithCpu base c₂ u₁)).projectedMonthlyCost ∧
    (calculateServerCosts (serverWithCpu base c₁ u₁)).projectedMonthlyCost ≤
      (calculateServerCosts (serverWithCpu base c₁ u₂)).projectedMonthlyCost := by
  simp only [calculateServerCosts, serverWithCpu, calculateComputeCost,
    calculateStorageCost, calculateNetworkCost]
  constructor
  · have hcomp : c₁ * 3000 * (u₁ / 100) ≤ c₂ * 3000 * (u₁ / 100) := by
      apply mul_le_mul_of_nonneg_right (by linarith) (by positivity)
    linarith
  · have hcomp : c₁ * 3000 * (u₁ / 100) ≤ c₁ * 3000 * (u₂ / 100) := by
      apply mul_le_mul_of_nonneg_left (by linarith) (by positivity)
    linarith

/-- C8 witness: `projectedMonthlyCost_monotone` instantiated at
`exampleServer` with cores 1 ≤ 2 and utilization 10 ≤ 20. -/
theorem projectedMonthlyCost_monotone_witness :
    (0 : ℚ) < 1 ∧ (1 : ℚ) ≤ 2 ∧ (0 : ℚ) ≤ 10 ∧ (10 : ℚ) ≤ 100 ∧
    (10 : ℚ) ≤ 20 ∧ (20 : ℚ) ≤ 100 ∧
    ((calculateServerCosts (serverWithCpu exampleServer 1 10)).projectedMonthlyCost ≤
      (calculateServerCosts (serverWithCpu exampleServer 2 10)).projectedMonthlyCost ∧
    (calculateServerCosts (serverWithCpu exampleServer 1 10)).projectedMonthlyCost ≤
      (calculateServerCosts (serverWithCpu exampleServer 1 20)).projectedMonthlyCost) :=
  ⟨by norm_num, by norm_num, by norm_num, by norm_num, by norm_num, by norm_num,
   projectedMonthlyCost_monotone exampleServer 1 2 10 20 (by norm_num)
     (by norm_num) (by norm_num) (by norm_num) (by norm_num) (by norm_num)⟩

/-- C9: in a sequence containing two or more servers with the same
`serverId`, the output mapping holds the breakdown of the LAST such server
in input order (later `serverCosts[id] = costs` assignments overwrite), while
the three portfolio totals still sum the breakdowns of every server,
duplicates included. -/
theorem duplicate_serverIds_last_wins (servers : List ServerAnalysis)
    (id : String)
    (_hdup : 1 < (servers.filter fun s => s.serverData.serverId == id).length) :
    (processServerCosts servers).serverCosts id =
      (servers.reverse.find? fun s =>
        s.serverData.serverId == id).map calculateServerCosts ∧
    (processServerCosts servers).totalMigrationCost =
      (servers.map fun s => (calculateServerCosts s).migrationCost).sum ∧
    (processServerCosts servers).monthlyCloudCost =
      (servers.map fun s => (calculateServerCosts s).projectedMonthlyCost).sum ∧
    (processServerCosts servers).currentCosts =
      (servers.map fun s => (calculateServerCosts s).currentMonthlyCost).sum := by
  refine ⟨?_, ?_, ?_, ?_⟩
  · simp only [processServerCosts]
    rw [aggFold_serverCosts]
    rcases h : servers.reverse.find? (fun s => s.serverData.serverId == id) with _ | t
    · rw [h]
      rfl
    · rw [h]
      rfl
  · simp only [processServerCosts]
    rw [aggFold_totalMigrationCost]
    simp
  · simp only [processServerCosts]
    rw [aggFold_monthlyCloudCost]
    simp
  · simp only [processServerCosts]
    rw [aggFold_currentCosts]
    simp

/-- C9 witness: the two-server portfolio `[dupServerA, dupServerB]`, both
keyed `"dup"`, instantiates `duplicate_serverIds_last_wins`. -/
theorem duplicate_serverIds_last_wins_witness :
    1 < ([dupServerA, dupServerB].filter fun s =>
      s.serverData.serverId == "dup").length ∧
    ((processServerCosts [dupServerA, dupServerB]).serverCosts "dup" =
      ([dupServerA, dupServerB].reverse.find? fun s =>
        s.serverData.serverId == "dup").map calculateServerCosts ∧
    (processServerCosts [dupServerA, dupServerB]).totalMigrationCost =
      ([dupServerA, dupServerB].map fun s =>
        (calculateServerCosts s).migrationCost).sum ∧
    (processServerCosts [dupServerA, dupServerB]).monthlyCloudCost =
      ([dupServerA, dupServerB].map fun s =>
        (calculateServerCosts s).projectedMonthlyCost).sum ∧
    (processServerCosts [dupServerA, dupServerB]).currentCosts =
      ([dupServerA, dupServerB].map fun s =>
        (calculateServerCosts s).currentMonthlyCost).sum) :=
  ⟨by simp [dupServerA, dupServerB],
   duplicate_serverIds_last_wins [dupServerA, dupServerB] "dup"
     (by simp [dupServerA, dupServerB])⟩

/-- C10: under the fixed markup `1.4`, per-server `savings` is exactly
`0.4 × projectedMonthlyCost`, hence non-negative whenever
`projectedMonthlyCost` is; likewise portfolio `monthlySavings` is exactly
`0.4 × monthlyCloudCost`, hence non-negative when every server's projected
cost is non-negative — the negative-savings outcome the spec allows for
cannot occur. -/
theorem savings_forty_percent_nonneg (server : ServerAnalysis)
    (hp : 0 ≤ (calculateServerCosts server).projectedMonthlyCost)
    (servers : List ServerAnalysis)
    (hall : ∀ s ∈ servers, 0 ≤ (calculateServerCosts s).projectedMonthlyCost) :
    (calculateServerCosts server).savings =
      0.4 * (calculateServerCosts server).projectedMonthlyCost ∧
    0 ≤ (calculateServerCosts server).savings ∧
    (processServerCosts servers).monthlySavings =
      0.4 * (processServerCosts servers).monthlyCloudCost ∧
    0 ≤ (processServerCosts servers).monthlySavings := by
  have e1 : (calculateServerCosts server).savings =
      0.4 * (calculateServerCosts server).projectedMonthlyCost := by
    simp only [calculateServerCosts]
    ring
  have hmapeq : (servers.map fun s => (calculateServerCosts s).currentMonthlyCost) =
      servers.map fun s => (calculateServerCosts s).projectedMonthlyCost * 1.4 :=
    List.map_congr_left fun s _ => rfl
  have e2 : (processServerCosts servers).monthlySavings =
      0.4 * (processServerCosts servers).monthlyCloudCost := by
    simp only [processServerCosts]
    rw [aggFold_currentCosts, aggFold_monthlyCloudCost, hmapeq,
      List.sum_map_mul_right]
    ring
  have hsum : 0 ≤ (servers.map fun s =>
      (calculateServerCosts s).projectedMonthlyCost).sum := by
    apply List.sum_nonneg
    intro x hx
    rcases List.mem_map.mp hx with ⟨s, hs, rfl⟩
    exact hall s hs
  have e3 : (processServerCosts servers).monthlyCloudCost =
      (servers.map fun s => (calculateServerCosts s).projectedMonthlyCost).sum := by
    simp only [processServerCosts]
    rw [aggFold_monthlyCloudCost]
    simp
  refine ⟨e1, ?_, e2, ?_⟩
  · rw [e1]
    nlinarith
  · rw [e2, e3]
    nlinarith

/-- C10 witness: `savings_forty_percent_nonneg` instantiated at
`exampleServer` and the portfolio `[exampleServer]`. -/
theorem savings_forty_percent_nonneg_witness :
    0 ≤ (calculateServerCosts exampleServer).projectedMonthlyCost ∧
    ((calculateServerCosts exampleServer).savings =
      0.4 * (calculateServerCosts exampleServer).projectedMonthlyCost ∧
    0 ≤ (calculateServerCosts exampleServer).savings ∧
    (processServerCosts [exampleServer]).monthlySavings =
      0.4 * (processServerCosts [exampleServer]).monthlyCloudCost ∧
    0 ≤ (processServerCosts [exampleServer]).monthlySavings) := by
  have hp : 0 ≤ (calculateServerCosts exampleServer).projectedMonthlyCost := by
    simp [exampleServer, calculateServerCosts, calculateComputeCost,
      calculateStorageCost, calculateNetworkCost]
    norm_num
  refine ⟨hp, savings_forty_percent_nonneg exampleServer hp [exampleServer] ?_⟩
  intro s hs
  rw [List.mem_singleton.mp hs]
  exact hp
